import Mathlib

/-!
Shallow embedding of the client-side chat widget engine
(`src/js/src/chat/chat.ts` — `ChatContainer`, `ChatInput`, `ChatMessage`).

The DOM is abstracted away: the transcript (`shiny-chat-messages`) is a list
of message-element states, the input control is a value/disabled pair, and
outbound `Shiny.setInputValue` calls / dispatched custom events are recorded
in lists.  Pure functions mirror the source methods one-to-one; each `def`
names the method it embeds.
-/

namespace ShinyChat

/-- Embeds `"user" | "assistant"` role discriminant of a message. -/
inductive Role where
  | user
  | assistant
deriving DecidableEq, Repr

/-- Embeds `content_type` values: `"markdown" | "html" | "text" | "semi-markdown"`. -/
inductive ContentType where
  | markdown
  | html
  | text
  | semiMarkdown
deriving DecidableEq, Repr

/-- Embeds `chunk_type` values (`null` is modelled as `Option.none`). -/
inductive ChunkType where
  | messageStart
  | messageEnd
deriving DecidableEq, Repr

/-- Embeds `operation` values (`null` is modelled as `Option.none`). -/
inductive Operation where
  | append
deriving DecidableEq, Repr

/-- The `Message` payload carried by the chat events
(`shiny-chat-input-sent`, `shiny-chat-append-message`,
`shiny-chat-append-message-chunk`).  Optional TypeScript fields are
`Option`s; `content_type` is optional because `#sendInput` dispatches a
detail object without it. -/
structure Message where
  content : String
  role : Role
  chunk_type : Option ChunkType
  content_type : Option ContentType
  icon : Option String
  operation : Option Operation
deriving DecidableEq, Repr

/-- State of one `<shiny-chat-message>` element in the transcript: its
`content`, `data-role`, `content-type` and `icon` attributes and the
presence of the `streaming` attribute.  Defaults (used when an attribute is
absent at creation) are `content-type = markdown`, `icon = ""`,
`streaming` absent. -/
structure MsgEl where
  content : String
  role : Role
  contentType : ContentType
  icon : String
  streaming : Bool
deriving DecidableEq, Repr

/-- One audio-input handoff produced by `ChatInput.#sendAudioData`
(the `{audio, format, duration, size}` record; the base64 payload itself is
abstracted to the total byte size of the buffered chunks). -/
structure AudioEvent where
  format : String
  duration : Nat
  size : Nat
deriving DecidableEq, Repr

/-- The negotiated `MediaRecorder` (raw capture mode); only its `mimeType`
matters to the embedded behaviour. -/
structure Recorder where
  mimeType : String
deriving DecidableEq, Repr

/-- The error thrown by `ChatContainer.#appendMessageChunk` when no message
exists in the chat output (`throw new Error("No messages found in the chat
output")`). -/
inductive ChatError where
  | noActiveMessage
deriving DecidableEq, Repr

/-- Combined state of one chat widget: the `ChatContainer`'s transcript and
configuration, the `ChatInput`'s text/disabled state and capture-session
fields, and the outbound effects (submitted text values, audio-input
events). -/
structure ChatState where
  /-- children of `<shiny-chat-messages>` -/
  messages : List MsgEl
  /-- container attribute `icon-assistant` -/
  iconAssistant : String
  /-- the textarea's current value -/
  inputValue : String
  /-- Embeds `ChatInput._disabled` -/
  inputDisabled : Bool
  /-- text values sent via `Shiny.setInputValue(this.id, value)` in `#sendInput` -/
  sentValues : List String
  /-- Embeds `_speechRecognition !== null` (a transcribe-mode session exists) -/
  speechRecognition : Bool
  /-- Embeds `_finalTranscript` -/
  finalTranscript : String
  /-- Embeds `_transcribedText` -/
  transcribedText : String
  /-- Embeds `_isRecording` -/
  isRecording : Bool
  /-- Embeds `_mediaRecorder` -/
  mediaRecorder : Option Recorder
  /-- sizes of the buffered `_audioChunks` (each pushed only when `size > 0`) -/
  audioChunks : List Nat
  /-- audio-input handoffs performed by `#sendAudioData` -/
  audioEvents : List AudioEvent
  /-- Embeds `_recordingStartTime` (ms) -/
  recordingStartTime : Nat
  /-- current clock (`Date.now()`, ms), held fixed during one handler run -/
  now : Nat
  /-- Embeds `_recordingTimer` -/
  recordingTimer : Option Nat
deriving DecidableEq, Repr

/-- The initial state: empty transcript, empty enabled input, no capture
session, no recorded effects. -/
def ChatState.init : ChatState :=
  { messages := []
    iconAssistant := ""
    inputValue := ""
    inputDisabled := false
    sentValues := []
    speechRecognition := false
    finalTranscript := ""
    transcribedText := ""
    isRecording := false
    mediaRecorder := none
    audioChunks := []
    audioEvents := []
    recordingStartTime := 0
    now := 0
    recordingTimer := none }

/-! ## Transcript-store operations (`ChatContainer`) -/

/-- Replace the last element of a list (identity on `[]`); embeds
`this.lastMessage.setAttribute(...)` / `removeAttribute(...)`. -/
def modifyLast (f : MsgEl → MsgEl) (l : List MsgEl) : List MsgEl :=
  match l.getLast? with
  | none => l
  | some last => l.dropLast ++ [f last]

/-- Embeds `ChatContainer.#removeLoadingMessage` at the list level: `const content =
this.lastMessage?.content; if (!content) this.lastMessage?.remove()` —
the last element is removed exactly when its content is the empty string. -/
def removeEmptyLast (l : List MsgEl) : List MsgEl :=
  match l.getLast? with
  | none => l
  | some last => if last.content = "" then l.dropLast else l

/-- Embeds `ChatContainer.#removeLoadingMessage`. -/
def removeLoadingMessage (s : ChatState) : ChatState :=
  { s with messages := removeEmptyLast s.messages }

/-- Embeds `ChatContainer.#finalizeMessage`: `this.input.disabled = false`. -/
def finalizeMessage (s : ChatState) : ChatState :=
  { s with inputDisabled := false }

/-- Embeds `ChatContainer.#initMessage`: remove a loading message, then disable the
input if it is not already disabled. -/
def initMessage (s : ChatState) : ChatState :=
  let s1 := removeLoadingMessage s
  if !s1.inputDisabled then { s1 with inputDisabled := true } else s1

/-- The `<shiny-chat-message>` element built by `ChatContainer.#appendMessage`
via `createElement(CHAT_MESSAGE_TAG, messageAttrs)`: attributes present in
the message are set on the element, absent ones keep the element defaults.
For an assistant message with a configured container `icon-assistant`, the
icon attribute becomes `message.icon || this.iconAssistant`. -/
def mkMsgEl (m : Message) (iconAssistant : String) : MsgEl :=
  let icon :=
    if m.role = Role.assistant ∧ iconAssistant ≠ "" then
      match m.icon with
      | some i => if i ≠ "" then i else iconAssistant
      | none => iconAssistant
    else m.icon.getD ""
  { content := m.content
    role := m.role
    contentType := m.content_type.getD ContentType.markdown
    icon := icon
    streaming := false }

/-- Embeds `ChatContainer.#appendMessage(message, finalize)`. -/
def appendMessage (m : Message) (finalize : Bool) (s : ChatState) : ChatState :=
  let s1 := initMessage s
  let s2 := { s1 with messages := s1.messages ++ [mkMsgEl m s1.iconAssistant] }
  if finalize then finalizeMessage s2 else s2

/-- The empty assistant message appended by `ChatContainer.#addLoadingMessage`. -/
def loadingMsgEl : MsgEl :=
  { content := ""
    role := Role.assistant
    contentType := ContentType.markdown
    icon := ""
    streaming := false }

/-- Embeds `ChatContainer.#addLoadingMessage`. -/
def addLoadingMessage (s : ChatState) : ChatState :=
  { s with messages := s.messages ++ [loadingMsgEl] }

/-- Embeds `ChatContainer.#appendMessageChunk`.  A `message_start` chunk first
appends the message with `finalize = false`, then sets the `streaming`
attribute on the (new) tail and returns.  Any other chunk requires a tail
message (else the `No messages found` error is thrown), rewrites the tail's
content (`operation == "append"` concatenates, otherwise replaces), and a
`message_end` chunk additionally clears `streaming` and finalizes. -/
def appendMessageChunk (m : Message) (s : ChatState) : Except ChatError ChatState :=
  let s1 :=
    if m.chunk_type = some ChunkType.messageStart then appendMessage m false s else s
  if s1.messages.isEmpty then
    Except.error ChatError.noActiveMessage
  else if m.chunk_type = some ChunkType.messageStart then
    Except.ok { s1 with messages := modifyLast (fun e => { e with streaming := true }) s1.messages }
  else
    let s2 :=
      { s1 with
        messages :=
          modifyLast
            (fun e =>
              { e with
                content :=
                  if m.operation = some Operation.append then e.content ++ m.content
                  else m.content })
            s1.messages }
    if m.chunk_type = some ChunkType.messageEnd then
      Except.ok
        (finalizeMessage
          { s2 with messages := modifyLast (fun e => { e with streaming := false }) s2.messages })
    else Except.ok s2

/-! ## Input control and submission path (`ChatInput`, `ChatContainer`) -/

/-- JavaScript `String.prototype.trim()`: strip leading and trailing
whitespace.  Implemented over the character list so that it evaluates by
`decide` on concrete inputs (core `String.trim` is defined through
`Substring` well-founded auxiliaries that do not reduce). -/
def jsTrim (s : String) : String :=
  String.mk (((s.data.dropWhile Char.isWhitespace).reverse.dropWhile Char.isWhitespace).reverse)

/-- Embeds `ChatInput.setInputValue(value)` with default options (no submit, no
focus): the only state effect is writing the textarea value (the dispatched
`input` event just autoresizes the textarea). -/
def setValueOnly (value : String) (s : ChatState) : ChatState :=
  { s with inputValue := value }

/-- Embeds `ChatContainer.#onInputSent`: append the user's message (with finalize),
then add a loading message. -/
def onInputSent (m : Message) (s : ChatState) : ChatState :=
  addLoadingMessage (appendMessage m true s)

/-- Embeds `ChatInput.#sendInput` together with the container's synchronous handling
of the dispatched `shiny-chat-input-sent` event.  Empty (whitespace-only)
values and a disabled input are no-ops; otherwise the value is sent to the
server (`Shiny.setInputValue`), the container appends the user turn and a
loading placeholder, the textarea is cleared and the input disabled.  The
`focus` parameter only moves keyboard focus and has no state effect. -/
def sendInput (_focus : Bool) (s : ChatState) : ChatState :=
  if jsTrim s.inputValue = "" then s
  else if s.inputDisabled then s
  else
    let s1 := { s with sentValues := s.sentValues ++ [s.inputValue] }
    let s2 :=
      onInputSent
        { content := s.inputValue
          role := Role.user
          chunk_type := none
          content_type := none
          icon := none
          operation := none }
        s1
    let s3 := setValueOnly "" s2
    { s3 with inputDisabled := true }

/-- Embeds `ChatInput.setInputValue(value, {submit, focus})`.  When submitting, the
previous textarea value is remembered and restored afterwards (the inner
`setInputValue(oldValue)` call uses default options, i.e. it only writes the
value). -/
def setInputValue (value : String) (submit : Bool) (_focus : Bool) (s : ChatState) : ChatState :=
  let oldValue := s.inputValue
  let s1 := setValueOnly value s
  if submit then
    let s2 := sendInput false s1
    if oldValue ≠ "" then setValueOnly oldValue s2 else s2
  else s1

/-! ## Interaction router: suggestion activation (`ChatContainer`) -/

/-- The argument record of the `input.setInputValue(suggestion, {submit,
focus})` call issued by `ChatContainer.#onInputSuggestionEvent`. -/
structure SetValueCall where
  value : String
  submit : Bool
  focus : Bool
deriving DecidableEq, Repr

/-- Embeds `ChatContainer.#onInputSuggestionEvent`.  The DOM resolution performed by
`#getSuggestion` is abstracted into the inputs: `suggestion` is the resolved
suggestion text (`none` when the event target is not a suggestion element,
in which case nothing happens) and `elemSubmit` is the element's own
submit flag.  `meta`/`ctrl`/`alt` are the event's modifier keys:
Cmd/Ctrl forces submitting, else Alt/Opt forces setting without submitting,
else the element's flag decides; focus is requested iff not submitting. -/
def onInputSuggestionEvent (suggestion : Option String) (elemSubmit : Bool)
    (meta ctrl alt : Bool) : Option SetValueCall :=
  match suggestion with
  | none => none
  | some t =>
    let shouldSubmit := if meta || ctrl then true else if alt then false else elemSubmit
    some { value := t, submit := shouldSubmit, focus := !shouldSubmit }

/-! ## Message feedback actions (`ChatMessage`) -/

/-- Feedback polarity carried by a `shiny-chat-message-feedback` event. -/
inductive Feedback where
  | positive
  | negative
deriving DecidableEq, Repr

/-- The per-message UI state touched by the feedback buttons: the message's
content (part of the transcript entry, displayed unchanged) and
`ChatMessage._feedbackGiven`. -/
structure MessageUIState where
  content : String
  feedbackGiven : Option Feedback
deriving DecidableEq, Repr

/-- Embeds `ChatMessage.#onThumbsUpClick`: toggle `_feedbackGiven` between
`positive` and `null`; dispatch one `positive` feedback event iff the new
value is non-null.  Returns the new state and the list of emitted feedback
events. -/
def onThumbsUpClick (st : MessageUIState) : MessageUIState × List Feedback :=
  let fb :=
    if st.feedbackGiven = some Feedback.positive then none else some Feedback.positive
  ({ st with feedbackGiven := fb }, if fb.isSome then [Feedback.positive] else [])

/-- Embeds `ChatMessage.#onThumbsDownClick`: toggle `_feedbackGiven` between
`negative` and `null`; dispatch one `negative` feedback event iff the new
value is non-null. -/
def onThumbsDownClick (st : MessageUIState) : MessageUIState × List Feedback :=
  let fb :=
    if st.feedbackGiven = some Feedback.negative then none else some Feedback.negative
  ({ st with feedbackGiven := fb }, if fb.isSome then [Feedback.negative] else [])

/-! ## Capture subsystem (`ChatInput`) -/

/-- The `MediaRecorder.ondataavailable` handler installed by
`ChatInput.#startRecording`: buffer a chunk only when `event.data.size > 0`. -/
def recorderOnDataAvailable (size : Nat) (s : ChatState) : ChatState :=
  if size > 0 then { s with audioChunks := s.audioChunks ++ [size] } else s

/-- Embeds `ChatInput.#stopRecording(cancel)`.  Transcribe mode (an active
`_speechRecognition`): auto-restart is disabled, recognition stopped and the
session field cleared; on a non-cancel stop with non-empty trimmed
transcript, the text is submitted via `setInputValue(text, {submit: true,
focus: true})`; finally the recording flag and display text are reset.
Raw mode: no-op unless a recorder exists and recording is active; the
duration timer is cleared; cancel discards the buffered chunks, otherwise
the `onstop` handler assembles them into one payload and hands it off via
`#sendAudioData` — but only when at least one chunk was buffered.  The
payload byte content is abstracted to its size; `duration` is the elapsed
time in whole seconds. -/
def stopRecording (cancel : Bool) (s : ChatState) : ChatState :=
  if s.speechRecognition then
    let s1 := { s with speechRecognition := false }
    let s2 :=
      if cancel = false ∧ jsTrim s1.transcribedText ≠ "" then
        setInputValue (jsTrim s1.transcribedText) true true s1
      else s1
    { s2 with isRecording := false, transcribedText := "" }
  else
    match s.mediaRecorder with
    | none => s
    | some rec =>
      if !s.isRecording then s
      else
        let s1 := { s with recordingTimer := none }
        let duration := (s1.now - s1.recordingStartTime) / 1000
        if cancel then
          { s1 with isRecording := false, audioChunks := [] }
        else
          let s2 :=
            if s1.audioChunks ≠ [] then
              { s1 with
                audioEvents :=
                  s1.audioEvents ++
                    [{ format := if rec.mimeType = "" then "audio/webm" else rec.mimeType
                       duration := duration
                       size := s1.audioChunks.sum }] }
            else s1
          { s2 with audioChunks := [], isRecording := false }

/-- Embeds `ChatInput.disconnectedCallback`: besides removing platform listeners
and observers (no widget-state effect), it runs `#stopRecording(true)` to
cancel any ongoing recording or transcription. -/
def inputDisconnectedCallback (s : ChatState) : ChatState :=
  stopRecording true s

/-! ## Operation traces over the transcript store -/

/-- One transcript-store operation: an atomic append
(`shiny-chat-append-message`) or a chunk (`shiny-chat-append-message-chunk`). -/
inductive ChatOp where
  | append (m : Message)
  | appendChunk (m : Message)
deriving DecidableEq, Repr

/-- Apply one operation.  A thrown `NoActiveMessage` propagates out of the
event handler, leaving the widget state as it was. -/
def chatOpStep (s : ChatState) (op : ChatOp) : ChatState :=
  match op with
  | ChatOp.append m => appendMessage m true s
  | ChatOp.appendChunk m =>
    match appendMessageChunk m s with
    | Except.ok s1 => s1
    | Except.error _ => s

/-- Run a sequence of append / append-chunk operations from the initial
(empty-transcript) state. -/
def runChatOps (ops : List ChatOp) : ChatState :=
  ops.foldl chatOpStep ChatState.init

/-- A message element in "loading placeholder" state: empty content and
assistant role (the placeholder standing in for a response not yet
finalized). -/
def isLoadingPlaceholder (e : MsgEl) : Bool :=
  e.content == "" && e.role == Role.assistant

/-- Transcript shape invariant: every message except possibly the last has
non-empty content. -/
def tailOnlyEmpty (l : List MsgEl) : Prop :=
  ∀ e ∈ l.dropLast, e.content ≠ ""

/-- Run a list of chunks through `#appendMessageChunk`, stopping at the
first thrown error. -/
def runChunks (ms : List Message) (s : ChatState) : Except ChatError ChatState :=
  ms.foldlM (fun st m => appendMessageChunk m st) s

/-- The streamed-turn chunk sequence of the spec's example:
`message_start` (assistant), `"Hel"` append, `"lo"` append, `message_end`
with empty content and append. -/
def helloChunks : List Message :=
  [ { content := ""
      role := Role.assistant
      chunk_type := some ChunkType.messageStart
      content_type := some ContentType.markdown
      icon := none
      operation := none }
  , { content := "Hel"
      role := Role.assistant
      chunk_type := none
      content_type := some ContentType.markdown
      icon := none
      operation := some Operation.append }
  , { content := "lo"
      role := Role.assistant
      chunk_type := none
      content_type := some ContentType.markdown
      icon := none
      operation := some Operation.append }
  , { content := ""
      role := Role.assistant
      chunk_type := some ChunkType.messageEnd
      content_type := some ContentType.markdown
      icon := none
      operation := some Operation.append } ]

/-- A `message_start` chunk that carries non-empty content `"Hi"`. -/
def startChunkHi : Message :=
  { content := "Hi"
    role := Role.assistant
    chunk_type := some ChunkType.messageStart
    content_type := some ContentType.markdown
    icon := none
    operation := none }

/-- A continuation chunk (no `chunk_type`) with content `"x"`. -/
def plainChunkX : Message :=
  { content := "x"
    role := Role.assistant
    chunk_type := none
    content_type := some ContentType.markdown
    icon := none
    operation := some Operation.append }

/-- The content of the transcript's tail entry after an `#appendMessageChunk`
call (`none` when the call threw or the transcript is empty). -/
def tailContentOf (r : Except ChatError ChatState) : Option String :=
  match r with
  | Except.ok s => (s.messages.getLast?).map (fun e => e.content)
  | Except.error _ => none

/-- The transcript element created for a plain user submission of value `v`
(no `content_type`, `icon`, `chunk_type` or `operation` in the event
detail, so the element keeps its defaults except for content and role). -/
def userMsgEl (v : String) : MsgEl :=
  { content := v
    role := Role.user
    contentType := ContentType.markdown
    icon := ""
    streaming := false }

/-! ## Helper lemmas -/

theorem modifyLast_nil (f : MsgEl → MsgEl) : modifyLast f [] = [] := rfl

theorem modifyLast_concat (f : MsgEl → MsgEl) (l : List MsgEl) (x : MsgEl) :
    modifyLast f (l ++ [x]) = l ++ [f x] := by
  simp [modifyLast, List.getLast?_concat, List.dropLast_concat]

theorem dropLast_modifyLast (f : MsgEl → MsgEl) (l : List MsgEl) :
    (modifyLast f l).dropLast = l.dropLast := by
  rcases List.eq_nil_or_concat l with rfl | ⟨L, b, rfl⟩
  · rfl
  · rw [List.concat_eq_append, modifyLast_concat, List.dropLast_concat, List.dropLast_concat]

theorem removeEmptyLast_nil : removeEmptyLast [] = [] := rfl

theorem removeEmptyLast_concat (l : List MsgEl) (x : MsgEl) :
    removeEmptyLast (l ++ [x]) = if x.content = "" then l else l ++ [x] := by
  simp [removeEmptyLast, List.getLast?_concat, List.dropLast_concat]

theorem tailOnlyEmpty_nil : tailOnlyEmpty [] := by
  intro e he
  simp at he

/-- After removing an empty tail and appending one element, the invariant is
preserved: all elements before the new tail have non-empty content. -/
theorem tailOnlyEmpty_removeEmptyLast_concat {l : List MsgEl} (h : tailOnlyEmpty l)
    (x : MsgEl) : tailOnlyEmpty (removeEmptyLast l ++ [x]) := by
  rcases List.eq_nil_or_concat l with rfl | ⟨L, b, rfl⟩
  · intro e he
    simp [removeEmptyLast_nil] at he
  · rw [List.concat_eq_append] at h ⊢
    rw [removeEmptyLast_concat]
    by_cases hb : b.content = ""
    · rw [if_pos hb]
      intro e he
      rw [List.dropLast_concat] at he
      exact h e (by rw [List.dropLast_concat]; exact he)
    · rw [if_neg hb]
      intro e he
      rw [List.dropLast_concat] at he
      rcases List.mem_append.mp he with h1 | h2
      · exact h e (by rw [List.dropLast_concat]; exact h1)
      · rw [List.mem_singleton] at h2
        subst h2
        exact hb

theorem tailOnlyEmpty_modifyLast {l : List MsgEl} (h : tailOnlyEmpty l)
    (f : MsgEl → MsgEl) : tailOnlyEmpty (modifyLast f l) := by
  intro e he
  rw [dropLast_modifyLast] at he
  exact h e he

/-- Under the transcript shape invariant there is at most one loading
placeholder (indeed at most one empty-content message) in the transcript. -/
theorem countP_isLoadingPlaceholder_le_one {l : List MsgEl} (h : tailOnlyEmpty l) :
    l.countP isLoadingPlaceholder ≤ 1 := by
  rcases List.eq_nil_or_concat l with rfl | ⟨L, b, rfl⟩
  · simp
  · rw [List.concat_eq_append] at h ⊢
    rw [List.countP_append]
    have hL : L.countP isLoadingPlaceholder = 0 := by
      rw [List.countP_eq_zero]
      intro e he
      have hne : e.content ≠ "" := h e (by rw [List.dropLast_concat]; exact he)
      simp only [isLoadingPlaceholder, Bool.and_eq_true, beq_iff_eq]
      intro hc
      exact hne hc.1
    rw [hL, Nat.zero_add]
    simp only [List.countP, List.countP.go]
    cases isLoadingPlaceholder b <;> simp

/-- Lemma: `#appendMessage` first removes a loading message, then appends exactly
one new message element; neither the `finalize` flag nor the disabled-state
bookkeeping touches the transcript. -/
theorem appendMessage_messages (m : Message) (finalize : Bool) (s : ChatState) :
    (appendMessage m finalize s).messages =
      removeEmptyLast s.messages ++ [mkMsgEl m s.iconAssistant] := by
  simp only [appendMessage, initMessage, removeLoadingMessage, finalizeMessage]
  split <;> split <;> rfl

theorem appendMessage_iconAssistant (m : Message) (finalize : Bool) (s : ChatState) :
    (appendMessage m finalize s).iconAssistant = s.iconAssistant := by
  simp only [appendMessage, initMessage, removeLoadingMessage, finalizeMessage]
  split <;> split <;> rfl

/-- One append / append-chunk step preserves the transcript shape
invariant. -/
theorem tailOnlyEmpty_chatOpStep {s : ChatState} (h : tailOnlyEmpty s.messages)
    (op : ChatOp) : tailOnlyEmpty (chatOpStep s op).messages := by
  cases op with
  | append m =>
    rw [chatOpStep, appendMessage_messages]
    exact tailOnlyEmpty_removeEmptyLast_concat h _
  | appendChunk m =>
    rw [chatOpStep]
    by_cases hst : m.chunk_type = some ChunkType.messageStart
    · have hmsg := appendMessage_messages m false s
      simp only [appendMessageChunk, if_pos hst, hmsg]
      rw [if_neg (by simp), modifyLast_concat]
      exact tailOnlyEmpty_removeEmptyLast_concat h _
    · by_cases he : s.messages.isEmpty
      · simp [appendMessageChunk, hst, he]
        exact h
      · by_cases hend : m.chunk_type = some ChunkType.messageEnd
        · simp [appendMessageChunk, hst, he, hend, finalizeMessage]
          exact tailOnlyEmpty_modifyLast (tailOnlyEmpty_modifyLast h _) _
        · simp [appendMessageChunk, hst, he, hend]
          exact tailOnlyEmpty_modifyLast h _

/-- The transcript shape invariant holds along every operation trace. -/
theorem tailOnlyEmpty_foldl (ops : List ChatOp) :
    ∀ s : ChatState, tailOnlyEmpty s.messages →
      tailOnlyEmpty (ops.foldl chatOpStep s).messages := by
  induction ops with
  | nil => intro s h; exact h
  | cons op rest ih =>
    intro s h
    exact ih _ (tailOnlyEmpty_chatOpStep h op)

/-- Full characterization of `#appendMessage`: one element appended after
placeholder removal, and the input left enabled iff finalizing. -/
theorem appendMessage_eq (m : Message) (finalize : Bool) (s : ChatState) :
    appendMessage m finalize s =
      { s with
        messages := removeEmptyLast s.messages ++ [mkMsgEl m s.iconAssistant]
        inputDisabled := if finalize then false else true } := by
  by_cases hd : s.inputDisabled <;> cases finalize <;>
    simp [appendMessage, initMessage, removeLoadingMessage, finalizeMessage, hd]

/-- Lemma: `#onInputSent` appends the user's message and then a loading message,
leaving the input enabled (it is re-disabled by `#sendInput` afterwards). -/
theorem onInputSent_eq (m : Message) (s : ChatState) :
    onInputSent m s =
      { s with
        messages := removeEmptyLast s.messages ++ [mkMsgEl m s.iconAssistant, loadingMsgEl]
        inputDisabled := false } := by
  simp [onInputSent, addLoadingMessage, appendMessage_eq]

/-- The element built for a user-submission message detail. -/
theorem mkMsgEl_user (v ia : String) :
    mkMsgEl
      { content := v
        role := Role.user
        chunk_type := none
        content_type := none
        icon := none
        operation := none } ia = userMsgEl v := by
  simp [mkMsgEl, userMsgEl]

/-- Full characterization of a successful `#sendInput`: the value is sent,
the user turn and a loading placeholder are appended, the textarea is
cleared and the input disabled. -/
theorem sendInput_submits (f : Bool) (s : ChatState) (he : jsTrim s.inputValue ≠ "")
    (hd : s.inputDisabled = false) :
    sendInput f s =
      { s with
        messages := removeEmptyLast s.messages ++ [userMsgEl s.inputValue, loadingMsgEl]
        inputValue := ""
        inputDisabled := true
        sentValues := s.sentValues ++ [s.inputValue] } := by
  simp [sendInput, he, hd, onInputSent_eq, setValueOnly, mkMsgEl_user]

/-! ## Claim theorems -/

/-- C1: For every sequence of append and append-chunk operations on the
transcript, at most one message is a loading placeholder (empty content,
assistant role) at any time — every reachable state is itself reached by
some operation sequence, so the bound over all sequences covers all
intermediate states — and `#appendMessage` removes an existing (empty-tail)
placeholder before appending the new message. -/
theorem transcript_at_most_one_placeholder :
    (∀ ops : List ChatOp,
      (runChatOps ops).messages.countP isLoadingPlaceholder ≤ 1)
    ∧ (∀ (m : Message) (finalize : Bool) (s : ChatState),
      ((appendMessage m finalize s).messages).dropLast = removeEmptyLast s.messages) := by
  constructor
  · intro ops
    have h0 : tailOnlyEmpty ChatState.init.messages := by
      intro e he
      simp [ChatState.init] at he
    exact countP_isLoadingPlaceholder_le_one (tailOnlyEmpty_foldl ops ChatState.init h0)
  · intro m finalize s
    rw [appendMessage_messages, List.dropLast_concat]

/-- C2: The chunk sequence `message_start` (assistant), `"Hel"` (append),
`"lo"` (append), `message_end` (`""`, append) applied to an empty
transcript yields exactly one message with content `"Hello"` and
`streaming = false`; each non-start chunk's content is computed by the
append rule `previous ++ chunk` embedded in `appendMessageChunk`. -/
theorem hello_stream_reassembly :
    (runChunks helloChunks ChatState.init).map (fun s => s.messages) =
      Except.ok
        [{ content := "Hello"
           role := Role.assistant
           contentType := ContentType.markdown
           icon := ""
           streaming := false }] := by
  rfl

/-- C3: Any chunk whose `chunk_type` is not `message_start`, applied when
the transcript is empty, throws the `NoActiveMessage` protocol-violation
error (`throw new Error("No messages found in the chat output")`) and
produces no new state. -/
theorem chunk_without_active_message_errors (s : ChatState) (m : Message)
    (hs : s.messages = []) (hm : m.chunk_type ≠ some ChunkType.messageStart) :
    appendMessageChunk m s = Except.error ChatError.noActiveMessage := by
  simp [appendMessageChunk, hm, hs]

/-- Witness for C3 at a concrete continuation chunk on the initial state. -/
theorem chunk_without_active_message_errors_witness :
    ChatState.init.messages = [] ∧
    plainChunkX.chunk_type ≠ some ChunkType.messageStart ∧
    appendMessageChunk plainChunkX ChatState.init =
      Except.error ChatError.noActiveMessage :=
  ⟨rfl, by decide, chunk_without_active_message_errors ChatState.init plainChunkX rfl (by decide)⟩

/-- C4 (counterexample): after a `message_start` chunk carrying content
`"Hi"` on the empty transcript, the tail entry's content is `"Hi"`, not the
empty string — the start chunk's content IS applied as the new entry's
initial content. -/
theorem start_chunk_content_refuted :
    tailContentOf (appendMessageChunk startChunkHi ChatState.init) = some "Hi" ∧
    tailContentOf (appendMessageChunk startChunkHi ChatState.init) ≠ some "" := by
  constructor
  · decide
  · decide

/-- C4 (amended): for every `message_start` chunk, `#appendMessageChunk`
creates a new tail entry (after removing an empty tail placeholder) and
marks it streaming, and the content carried by the start chunk is applied
as the entry's initial content — the tail's content equals the chunk's
content, not the empty string. -/
theorem start_chunk_creates_streaming_tail (m : Message) (s : ChatState)
    (hm : m.chunk_type = some ChunkType.messageStart) :
    ∃ s1, appendMessageChunk m s = Except.ok s1
      ∧ s1.messages =
          removeEmptyLast s.messages ++ [{ mkMsgEl m s.iconAssistant with streaming := true }]
      ∧ tailContentOf (appendMessageChunk m s) = some m.content := by
  have hmsg := appendMessage_messages m false s
  have hicon := appendMessage_iconAssistant m false s
  have hne : ((appendMessage m false s).messages).isEmpty = false := by
    rw [hmsg]
    simp
  have hstep : appendMessageChunk m s =
      Except.ok
        { appendMessage m false s with
          messages :=
            modifyLast (fun e => { e with streaming := true }) (appendMessage m false s).messages } := by
    simp [appendMessageChunk, hm, hne]
  refine ⟨_, hstep, ?_, ?_⟩
  · show modifyLast (fun e => { e with streaming := true }) (appendMessage m false s).messages = _
    rw [hmsg, modifyLast_concat]
  · rw [hstep]
    show (((modifyLast (fun e => { e with streaming := true })
        (appendMessage m false s).messages).getLast?).map (fun e => e.content)) = some m.content
    rw [hmsg, modifyLast_concat, List.getLast?_concat]
    rfl

/-- C5: A user submission with a non-empty (not whitespace-only) value on
an enabled input appends the user message, appends the loading placeholder,
sends the value and disables the input; submitting while disabled or with
an empty/whitespace-only value changes nothing at all. -/
theorem user_submission (s : ChatState) :
    ((s.inputDisabled = true ∨ jsTrim s.inputValue = "") → sendInput true s = s)
    ∧ (s.inputDisabled = false → jsTrim s.inputValue ≠ "" →
        (sendInput true s).messages =
            removeEmptyLast s.messages ++ [userMsgEl s.inputValue, loadingMsgEl]
        ∧ (sendInput true s).inputDisabled = true
        ∧ (sendInput true s).sentValues = s.sentValues ++ [s.inputValue]
        ∧ (sendInput true s).inputValue = "") := by
  constructor
  · rintro (hd | he)
    · by_cases he : jsTrim s.inputValue = ""
      · simp [sendInput, he]
      · simp [sendInput, he, hd]
    · simp [sendInput, he]
  · intro hd he
    rw [sendInput_submits true s he hd]
    exact ⟨rfl, rfl, rfl, rfl⟩

/-- Witness for C5: a concrete non-empty submission disables the input, and
a whitespace-only submission is a no-op. -/
theorem user_submission_witness :
    (sendInput true { ChatState.init with inputValue := "hi" }).inputDisabled = true
    ∧ sendInput true { ChatState.init with inputValue := " " } =
        { ChatState.init with inputValue := " " } := by
  constructor
  · exact ((user_submission { ChatState.init with inputValue := "hi" }).2 rfl (by decide)).2.1
  · exact (user_submission { ChatState.init with inputValue := " " }).1 (Or.inr (by decide))

/-- C6: A primary modifier (command/control) resolves a suggestion
activation to submit regardless of the element's own flag; a secondary
modifier (option/alt, without a primary) resolves to fill-without-submit;
with no modifier the element's flag decides; the issued `setInputValue`
call always has `focus = !submit`. -/
theorem suggestion_modifier_resolution (t : String) (elemSubmit meta ctrl alt : Bool) :
    ((meta = true ∨ ctrl = true) →
      onInputSuggestionEvent (some t) elemSubmit meta ctrl alt =
        some { value := t, submit := true, focus := false })
    ∧ (meta = false → ctrl = false → alt = true →
      onInputSuggestionEvent (some t) elemSubmit meta ctrl alt =
        some { value := t, submit := false, focus := true })
    ∧ (meta = false → ctrl = false → alt = false →
      onInputSuggestionEvent (some t) elemSubmit meta ctrl alt =
        some { value := t, submit := elemSubmit, focus := !elemSubmit }) := by
  refine ⟨?_, ?_, ?_⟩
  · rintro (h | h) <;> simp [onInputSuggestionEvent, h]
  · intro h1 h2 h3
    simp [onInputSuggestionEvent, h1, h2, h3]
  · intro h1 h2 h3
    simp [onInputSuggestionEvent, h1, h2, h3]

/-- Witness for C6: concrete modifier combinations (primary over a
fill-default element, secondary over a submit-default element, and no
modifier over a submit-default element). -/
theorem suggestion_modifier_resolution_witness :
    onInputSuggestionEvent (some "s") false true false false =
        some { value := "s", submit := true, focus := false }
    ∧ onInputSuggestionEvent (some "s") true false false true =
        some { value := "s", submit := false, focus := true }
    ∧ onInputSuggestionEvent (some "s") true false false false =
        some { value := "s", submit := true, focus := false } := by
  refine ⟨(suggestion_modifier_resolution "s" false true false false).1 (Or.inl rfl),
    (suggestion_modifier_resolution "s" true false false true).2.1 rfl rfl rfl, ?_⟩
  exact (suggestion_modifier_resolution "s" true false false false).2.2 rfl rfl rfl

/-- C7: On a message with no feedback given, thumbs-up sets positive
feedback and emits exactly one feedback event; thumbs-up again clears it
and emits none; thumbs-down afterwards sets negative feedback and emits
exactly one event; none of the toggles changes the message content
(the transcript entry is untouched). -/
theorem feedback_toggle_sequence (st : MessageUIState) (h : st.feedbackGiven = none) :
    (onThumbsUpClick st).1.feedbackGiven = some Feedback.positive
    ∧ (onThumbsUpClick st).2 = [Feedback.positive]
    ∧ (onThumbsUpClick st).1.content = st.content
    ∧ (onThumbsUpClick (onThumbsUpClick st).1).1.feedbackGiven = none
    ∧ (onThumbsUpClick (onThumbsUpClick st).1).2 = []
    ∧ (onThumbsUpClick (onThumbsUpClick st).1).1.content = st.content
    ∧ (onThumbsDownClick (onThumbsUpClick (onThumbsUpClick st).1).1).1.feedbackGiven =
        some Feedback.negative
    ∧ (onThumbsDownClick (onThumbsUpClick (onThumbsUpClick st).1).1).2 = [Feedback.negative]
    ∧ (onThumbsDownClick (onThumbsUpClick (onThumbsUpClick st).1).1).1.content = st.content := by
  simp [onThumbsUpClick, onThumbsDownClick, h]

/-- Witness for C7 at a concrete un-reacted message. -/
theorem feedback_toggle_sequence_witness :
    ({ content := "c", feedbackGiven := none } : MessageUIState).feedbackGiven = none
    ∧ (onThumbsUpClick { content := "c", feedbackGiven := none }).1.feedbackGiven =
        some Feedback.positive :=
  ⟨rfl, (feedback_toggle_sequence { content := "c", feedbackGiven := none } rfl).1⟩

/-- Full characterization of an explicit (non-cancel) transcribe-mode stop
with non-empty displayed text: the trimmed text goes through the ordinary
submission path (user turn + placeholder appended, value sent, input
disabled, textarea value restored) and the session is destroyed. -/
theorem stopRecording_transcribe_submits (s : ChatState)
    (hs : s.speechRecognition = true) (hd : s.inputDisabled = false)
    (ht : jsTrim s.transcribedText = s.transcribedText) (hne : s.transcribedText ≠ "") :
    stopRecording false s =
      { s with
        messages := removeEmptyLast s.messages ++ [userMsgEl s.transcribedText, loadingMsgEl]
        inputDisabled := true
        sentValues := s.sentValues ++ [s.transcribedText]
        speechRecognition := false
        isRecording := false
        transcribedText := "" } := by
  have hcond : jsTrim s.transcribedText ≠ "" := by
    rw [ht]
    exact hne
  have hs2 : stopRecording false s =
      { setInputValue (jsTrim s.transcribedText) true true
          { s with speechRecognition := false } with
        isRecording := false
        transcribedText := "" } := by
    simp [stopRecording, hs, hcond]
  rw [hs2]
  simp only [setInputValue, setValueOnly]
  rw [sendInput_submits false _ (by simpa [ht] using hcond) (by simpa using hd)]
  by_cases hv : s.inputValue = "" <;> simp [hv, ht, setValueOnly]

/-- C8: Stopping (not cancelling) a transcribe-mode capture session with
non-empty displayed text submits exactly the trimmed text through the
ordinary text-submission path and produces zero audio-input events; with
empty displayed text nothing is submitted; in both cases the session is
destroyed.  The hypothesis that `_transcribedText` is trim-stable reflects
the recognizer's `onresult` handler, which only ever stores `""` or an
already-trimmed concatenation; explicit stop requires the mic button, which
is only clickable while the input is enabled. -/
theorem transcribe_stop (s : ChatState)
    (hs : s.speechRecognition = true) (hd : s.inputDisabled = false)
    (ht : jsTrim s.transcribedText = s.transcribedText) :
    (s.transcribedText ≠ "" →
      (stopRecording false s).sentValues = s.sentValues ++ [s.transcribedText]
      ∧ (stopRecording false s).audioEvents = s.audioEvents
      ∧ (stopRecording false s).speechRecognition = false
      ∧ (stopRecording false s).isRecording = false
      ∧ (stopRecording false s).transcribedText = "")
    ∧ (s.transcribedText = "" →
      stopRecording false s =
        { s with speechRecognition := false, isRecording := false, transcribedText := "" }) := by
  constructor
  · intro hne
    rw [stopRecording_transcribe_submits s hs hd ht hne]
    exact ⟨rfl, rfl, rfl, rfl, rfl⟩
  · intro h0
    have hz : jsTrim s.transcribedText = "" := by
      rw [ht, h0]
    simp [stopRecording, hs, hz]

/-- Witness for C8 at a concrete session whose displayed text is
`"hello world"`: exactly that string is submitted and no audio-input event
is produced. -/
theorem transcribe_stop_witness :
    (stopRecording false
        { ChatState.init with speechRecognition := true, transcribedText := "hello world" }).sentValues =
      ChatState.init.sentValues ++ ["hello world"]
    ∧ (stopRecording false
        { ChatState.init with speechRecognition := true, transcribedText := "hello world" }).audioEvents =
      ChatState.init.audioEvents := by
  have h :=
    (transcribe_stop
        { ChatState.init with speechRecognition := true, transcribedText := "hello world" }
        rfl rfl (by decide)).1 (by decide)
  exact ⟨h.1, h.2.1⟩

/-- C9: Component teardown (`disconnectedCallback`) cancels any in-progress
capture session of either mode: it submits no text value, produces no
audio-input event, leaves no speech session, stops the recording flag of an
in-progress session, and any later `#stopRecording` on the torn-down state
is a complete no-op — the cancelled session can never resolve to a
submission. -/
theorem teardown_cancels (s : ChatState) (c : Bool) :
    (inputDisconnectedCallback s).sentValues = s.sentValues
    ∧ (inputDisconnectedCallback s).audioEvents = s.audioEvents
    ∧ (inputDisconnectedCallback s).speechRecognition = false
    ∧ stopRecording c (inputDisconnectedCallback s) = inputDisconnectedCallback s
    ∧ ((s.speechRecognition = true ∨ s.mediaRecorder.isSome = true) →
        (inputDisconnectedCallback s).isRecording = false) := by
  by_cases hs : s.speechRecognition = true
  · refine ⟨?_, ?_, ?_, ?_, ?_⟩ <;>
      simp [inputDisconnectedCallback, stopRecording, hs]
    cases hm : s.mediaRecorder <;> simp [hm]
  · have hs' : s.speechRecognition = false := by
      cases h : s.speechRecognition
      · rfl
      · exact absurd h hs
    cases hm : s.mediaRecorder with
    | none =>
      refine ⟨?_, ?_, ?_, ?_, ?_⟩ <;>
        simp [inputDisconnectedCallback, stopRecording, hs', hm]
    | some rec =>
      cases hr : s.isRecording with
      | false =>
        refine ⟨?_, ?_, ?_, ?_, ?_⟩ <;>
          simp [inputDisconnectedCallback, stopRecording, hs', hm, hr]
      | true =>
        refine ⟨?_, ?_, ?_, ?_, ?_⟩ <;>
          simp [inputDisconnectedCallback, stopRecording, hs', hm, hr]

/-- Witness for C9 at a concrete in-progress transcribe session. -/
theorem teardown_cancels_witness :
    (inputDisconnectedCallback
        { ChatState.init with speechRecognition := true, isRecording := true }).isRecording =
      false :=
  (teardown_cancels { ChatState.init with speechRecognition := true, isRecording := true }
      false).2.2.2.2 (Or.inl rfl)

/-- C10: Stopping (not cancelling) a raw-mode recording whose buffered
chunk list is empty emits no audio-input event and sends no value at all;
the `{payload, encoding, duration, size}` handoff can only happen when the
chunk list is non-empty, and `ondataavailable` never buffers an empty
chunk. -/
theorem raw_stop_empty_chunks (s : ChatState) (hs : s.speechRecognition = false) :
    (s.audioChunks = [] →
      (stopRecording false s).audioEvents = s.audioEvents
      ∧ (stopRecording false s).sentValues = s.sentValues)
    ∧ ((stopRecording false s).audioEvents ≠ s.audioEvents → s.audioChunks ≠ [])
    ∧ recorderOnDataAvailable 0 s = s := by
  have h1 : s.audioChunks = [] →
      (stopRecording false s).audioEvents = s.audioEvents
      ∧ (stopRecording false s).sentValues = s.sentValues := by
    intro hc
    cases hm : s.mediaRecorder with
    | none => simp [stopRecording, hs, hm]
    | some rec =>
      cases hr : s.isRecording with
      | false => simp [stopRecording, hs, hm, hr]
      | true => simp [stopRecording, hs, hm, hr, hc]
  refine ⟨h1, ?_, ?_⟩
  · intro hne hc
    exact hne (h1 hc).1
  · simp [recorderOnDataAvailable]

/-- Witness for C10 at a concrete empty-buffer raw session. -/
theorem raw_stop_empty_chunks_witness :
    (stopRecording false
        { ChatState.init with mediaRecorder := some { mimeType := "audio/webm" }, isRecording := true }).audioEvents =
      ChatState.init.audioEvents :=
  ((raw_stop_empty_chunks
      { ChatState.init with mediaRecorder := some { mimeType := "audio/webm" }, isRecording := true }
      rfl).1 rfl).1

/-- Witness for C4's amended theorem at the concrete `"Hi"` start chunk. -/
theorem start_chunk_creates_streaming_tail_witness :
    startChunkHi.chunk_type = some ChunkType.messageStart ∧
    ∃ s1, appendMessageChunk startChunkHi ChatState.init = Except.ok s1
      ∧ s1.messages =
          removeEmptyLast ChatState.init.messages ++
            [{ mkMsgEl startChunkHi ChatState.init.iconAssistant with streaming := true }]
      ∧ tailContentOf (appendMessageChunk startChunkHi ChatState.init) =
          some startChunkHi.content :=
  ⟨rfl, start_chunk_creates_streaming_tail startChunkHi ChatState.init rfl⟩

end ShinyChat
